import Mathlib

/-!
Shallow embedding of `src/lib.rs` (ink! contract `random_sample`).

The contract stores two integers, `salt : u64` and `random : u8`, and exposes
`new`/`default` constructors, `flip`, `get`, and the helper `get_pseudo_random`.
`get_pseudo_random` hashes (with Keccak-256) the 16-byte message formed by the
big-endian bytes of the host-supplied block timestamp followed by the big-endian
bytes of `salt`, increments `salt`, and reduces the first digest byte modulo
`max_value + 1` (computed in `u8`).

Machine integers are modelled as `Nat` with explicit reductions mod `2 ^ 64`
(u64) and mod `256` (u8) where the Rust arithmetic can overflow; release-mode
wrapping semantics are used for `+`.  The remainder operation `%` with divisor
`0` panics in Rust, so `get_pseudo_random` returns an `Option`, `none` standing
for the panic.  The host timestamp (`self.env().block_timestamp()`) is passed
as an explicit `seed` parameter.  Keccak-256 is the concrete external hash
primitive used by the code (`ink::env::hash::Keccak256`); it is implemented
below from the Keccak-f[1600] specification.
-/

/-- Left-rotation of a 64-bit lane. -/
def rotl64 (x n : Nat) : Nat :=
  ((x <<< (n % 64)) ||| (x >>> (64 - n % 64))) % 2 ^ 64

/-- Iterate the Keccak rc LFSR (polynomial x^8 + x^6 + x^5 + x^4 + 1) `t`
times starting from 1; bit 0 of the result is the bit rc(t) of FIPS 202. -/
def keccakLfsrIter : Nat → Nat
  | 0 => 1
  | t + 1 =>
    let r := 2 * keccakLfsrIter t
    if 256 ≤ r then r ^^^ 0x171 else r

/-- The 24 Keccak-f[1600] round constants, generated from the rc LFSR:
round `i` has bit `2 ^ j - 1` set to rc(j + 7 i), for j in 0..6. -/
def keccakRC : List Nat :=
  (List.range 24).map fun i =>
    (List.range 7).foldl
      (fun acc j => acc + (keccakLfsrIter (j + 7 * i) &&& 1) * 2 ^ (2 ^ j - 1)) 0

/-- Rotation offsets, lane `i` holding A[x,y] with `i = x + 5*y`, generated
from the rho recurrence: starting at (1,0), step t assigns offset
(t+1)(t+2)/2 mod 64 to the current lane and moves to (y, 2x+3y mod 5). -/
def keccakRot : List Nat :=
  ((List.range 24).foldl
    (fun acc t =>
      let x := acc.1
      let y := acc.2.1
      (y, (2 * x + 3 * y) % 5, acc.2.2.set (x + 5 * y) ((t + 1) * (t + 2) / 2 % 64)))
    (1, 0, List.replicate 25 0)).2.2

/-- Keccak theta step on a 25-lane state. -/
def keccakTheta (A : List Nat) : List Nat :=
  let C := (List.range 5).map fun x =>
    A.getD x 0 ^^^ A.getD (x + 5) 0 ^^^ A.getD (x + 10) 0 ^^^
      A.getD (x + 15) 0 ^^^ A.getD (x + 20) 0
  let D := (List.range 5).map fun x =>
    C.getD ((x + 4) % 5) 0 ^^^ rotl64 (C.getD ((x + 1) % 5) 0) 1
  (List.range 25).map fun i => A.getD i 0 ^^^ D.getD (i % 5) 0

/-- Keccak rho and pi steps: lane A[x,y] is rotated and moved to B[y, 2x+3y]. -/
def keccakRhoPi (A : List Nat) : List Nat :=
  (List.range 25).foldl
    (fun B i =>
      let x := i % 5
      let y := i / 5
      B.set (y + 5 * ((2 * x + 3 * y) % 5)) (rotl64 (A.getD i 0) (keccakRot.getD i 0)))
    (List.replicate 25 0)

/-- Keccak chi step. -/
def keccakChi (B : List Nat) : List Nat :=
  (List.range 25).map fun i =>
    let x := i % 5
    let y := i / 5
    B.getD i 0 ^^^
      ((B.getD ((x + 1) % 5 + 5 * y) 0 ^^^ (2 ^ 64 - 1)) &&& B.getD ((x + 2) % 5 + 5 * y) 0)

/-- One Keccak-f[1600] round with round constant `rc`. -/
def keccakRound (A : List Nat) (rc : Nat) : List Nat :=
  let B := keccakChi (keccakRhoPi (keccakTheta A))
  B.set 0 (B.getD 0 0 ^^^ rc)

/-- The full Keccak-f[1600] permutation (24 rounds). -/
def keccakF (A : List Nat) : List Nat :=
  keccakRC.foldl keccakRound A

/-- Interpret up to 8 bytes as a little-endian 64-bit lane. -/
def bytesToLane (bs : List Nat) : Nat :=
  bs.foldr (fun b acc => acc * 256 + b) 0

/-- Keccak padding (pad10*1 with domain byte 0x01), rate 136 bytes. -/
def keccakPad (msg : List Nat) : List Nat :=
  let padlen := 136 - msg.length % 136
  if padlen = 1 then msg ++ [0x81]
  else msg ++ [0x01] ++ List.replicate (padlen - 2) 0 ++ [0x80]

/-- Absorb one 136-byte block into the state and permute. -/
def keccakAbsorbBlock (A : List Nat) (block : List Nat) : List Nat :=
  let lanes := (List.range 17).map fun i => bytesToLane ((block.drop (8 * i)).take 8)
  keccakF ((List.range 25).map fun i => A.getD i 0 ^^^ lanes.getD i 0)

/-- Absorb `nblocks` rate-sized blocks of `padded` into the sponge state. -/
def keccakSponge (A : List Nat) (padded : List Nat) (nblocks : Nat) : List Nat :=
  match nblocks with
  | 0 => A
  | n + 1 => keccakSponge (keccakAbsorbBlock A (padded.take 136)) (padded.drop 136) n

/-- Keccak-256 of a byte list, as a 32-byte digest. -/
def keccak256 (msg : List Nat) : List Nat :=
  let padded := keccakPad msg
  let A := keccakSponge (List.replicate 25 0) padded (padded.length / 136)
  (List.range 32).map fun i => (A.getD (i / 8) 0 >>> (8 * (i % 8))) % 256

/-- The modulus 2 ^ 64 of the contract's `u64` salt. -/
def U64_SIZE : Nat := 2 ^ 64

/-- Big-endian byte serialization of a `u64` (`u64::to_be_bytes` in the code). -/
def u64ToBeBytes (n : Nat) : List Nat :=
  [n / 2 ^ 56 % 256, n / 2 ^ 48 % 256, n / 2 ^ 40 % 256, n / 2 ^ 32 % 256,
   n / 2 ^ 24 % 256, n / 2 ^ 16 % 256, n / 2 ^ 8 % 256, n % 256]

/-- The contract storage: `salt : u64` and `random : u8` (`struct RandomSample`). -/
structure RandomSample where
  salt : Nat
  random : Nat
  deriving DecidableEq, Repr

/-- Constructor `new`: `Self { salt: 0, random: 0 }`. -/
def RandomSample.new : RandomSample :=
  { salt := 0, random := 0 }

/-- Constructor `default`: delegates to `new`. -/
def RandomSample.default : RandomSample :=
  RandomSample.new

/-- Message `get`: returns the stored `random` field. -/
def RandomSample.get (s : RandomSample) : Nat :=
  s.random

/-- Method `get_pseudo_random(max_value)`: hashes the big-endian bytes of the host
timestamp (`seed`) followed by the big-endian bytes of `salt` with Keccak-256,
increments `salt` (u64, wrapping in release mode, so reduced mod `2 ^ 64`),
and returns `output[0] % (max_value + 1)`.  `max_value + 1` is computed in
`u8`, hence reduced mod 256; when it is 0 (i.e. `max_value = 255`) the `%`
operation panics in Rust, modelled as `none`. -/
def RandomSample.get_pseudo_random (seed : Nat) (s : RandomSample) (max_value : Nat) :
    Option (Nat × RandomSample) :=
  let input := u64ToBeBytes seed ++ u64ToBeBytes s.salt
  let output := keccak256 input
  let salt' := (s.salt + 1) % U64_SIZE
  let divisor := (max_value + 1) % 256
  if divisor = 0 then none
  else some (output.headD 0 % divisor, { s with salt := salt' })

/-- Message `flip`: `self.random = self.get_pseudo_random(99)`.  The bound 99
never makes `get_pseudo_random` panic, so the `none` branch is dead. -/
def RandomSample.flip (seed : Nat) (s : RandomSample) : RandomSample :=
  match RandomSample.get_pseudo_random seed s 99 with
  | some (v, s') => { s' with random := v }
  | none => s

/-- Run a sequence of `get_pseudo_random` calls, each given by a pair
`(timestamp, bound)`; a panicking call aborts the sequence. -/
def runGen (s : RandomSample) : List (Nat × Nat) → Option RandomSample
  | [] => some s
  | (seed, b) :: rest =>
    (RandomSample.get_pseudo_random seed s b).bind fun p => runGen p.2 rest

/-- Unfolding lemma: for a bound below 255 the call succeeds, returning the
first digest byte mod `bound + 1` and incrementing the salt. -/
theorem get_pseudo_random_eq_of_lt (seed : Nat) (s : RandomSample) (b : Nat) (hb : b < 255) :
    RandomSample.get_pseudo_random seed s b =
      some ((keccak256 (u64ToBeBytes seed ++ u64ToBeBytes s.salt)).headD 0 % (b + 1),
        { s with salt := (s.salt + 1) % U64_SIZE }) := by
  have h1 : (b + 1) % 256 = b + 1 := Nat.mod_eq_of_lt (by omega)
  simp [RandomSample.get_pseudo_random, h1]

/-- Unfolding lemma: at bound 255 the `u8` computation `max_value + 1` wraps to
0 and the remainder operation panics (`none`). -/
theorem get_pseudo_random_255 (seed : Nat) (s : RandomSample) :
    RandomSample.get_pseudo_random seed s 255 = none := by
  simp [RandomSample.get_pseudo_random]


set_option maxRecDepth 20000 in
/-- C1 counterexample: from a fresh instance, `get_pseudo_random(254)` with
timestamp 0 returns 244 (the first Keccak-256 digest byte of the 16 zero
bytes), yet a subsequent `get` (the spec's `lastValue`) still returns 0, not
244: `get_pseudo_random` never stores its result in the `random` field. -/
theorem lastValue_after_generate_cex :
    RandomSample.get_pseudo_random 0 RandomSample.new 254 = some (244, ⟨1, 0⟩) ∧
      RandomSample.get ⟨1, 0⟩ ≠ 244 := by
  constructor
  · decide
  · decide

/-- C1 amended: `get_pseudo_random` leaves the `random` field (lastValue)
unchanged; only `flip` stores the generated value, so after `flip` the value
observed by `get` is exactly the value `get_pseudo_random(99)` produced. -/
theorem lastValue_generate_flip :
    (∀ (seed : Nat) (s : RandomSample) (b v : Nat) (s' : RandomSample),
        RandomSample.get_pseudo_random seed s b = some (v, s') →
        RandomSample.get s' = RandomSample.get s) ∧
    (∀ (seed : Nat) (s : RandomSample) (v : Nat) (s' : RandomSample),
        RandomSample.get_pseudo_random seed s 99 = some (v, s') →
        RandomSample.get (RandomSample.flip seed s) = v) := by
  constructor
  · intro seed s b v s' h
    by_cases hd : (b + 1) % 256 = 0
    · simp [RandomSample.get_pseudo_random, hd] at h
    · simp [RandomSample.get_pseudo_random, hd] at h
      obtain ⟨-, hs⟩ := h
      subst hs
      rfl
  · intro seed s v s' h
    unfold RandomSample.flip
    rw [h]
    rfl

set_option maxRecDepth 20000 in
/-- C1 witness: the amended theorem evaluated on a fresh instance with
timestamp 0 (the stored value stays 0 after a bare generate; `flip` stores 44,
which is 244 mod 100). -/
theorem lastValue_generate_flip_witness :
    RandomSample.get ⟨1, 0⟩ = RandomSample.get RandomSample.new ∧
      RandomSample.get (RandomSample.flip 0 RandomSample.new) = 44 :=
  ⟨lastValue_generate_flip.1 0 RandomSample.new 254 244 ⟨1, 0⟩ (by decide),
   lastValue_generate_flip.2 0 RandomSample.new 44 ⟨1, 0⟩ (by decide)⟩

/-- C2 counterexample: `get_pseudo_random(255)` panics (modelled `none`):
`max_value + 1` is computed in `u8`, so at 255 it wraps to 0 and the remainder
operation divides by zero — the claimed widened-type totality does not hold. -/
theorem generate_total_cex :
    RandomSample.get_pseudo_random 0 RandomSample.new 255 = none := by
  decide

/-- C2 amended: for every bound in [0,254] (and any state and timestamp) the
call has no failure path; the divisor `bound + 1` then never wraps to zero. -/
theorem generate_total_below_255 (seed : Nat) (s : RandomSample) (b : Nat) (hb : b < 255) :
    (RandomSample.get_pseudo_random seed s b).isSome = true := by
  rw [get_pseudo_random_eq_of_lt seed s b hb]
  rfl

/-- C2 witness: the amended totality theorem at bound 0 on a fresh instance. -/
theorem generate_total_below_255_witness :
    (RandomSample.get_pseudo_random 0 RandomSample.new 0).isSome = true :=
  generate_total_below_255 0 RandomSample.new 0 (by decide)

/-- C3 counterexample: at bound 255 the call returns no value at all (it
panics), so it does not return a value in [0, 255]. -/
theorem generate_bounded_cex :
    RandomSample.get_pseudo_random 0 ⟨5, 0⟩ 255 = none := by
  decide

/-- C3 amended: whenever `get_pseudo_random(bound)` returns a value (which is
exactly for bounds in [0,254], by the totality theorem), that value is at most
`bound`. -/
theorem generate_bounded (seed : Nat) (s : RandomSample) (b v : Nat) (s' : RandomSample)
    (h : RandomSample.get_pseudo_random seed s b = some (v, s')) : v ≤ b := by
  by_cases hd : (b + 1) % 256 = 0
  · simp only [RandomSample.get_pseudo_random, if_pos hd] at h
    cases h
  · simp only [RandomSample.get_pseudo_random, if_neg hd, Option.some.injEq,
      Prod.mk.injEq] at h
    obtain ⟨hv, -⟩ := h
    rw [← hv]
    have h3 := Nat.mod_lt ((keccak256 (u64ToBeBytes seed ++ u64ToBeBytes s.salt)).headD 0)
      (Nat.pos_of_ne_zero hd)
    have h2 : (b + 1) % 256 ≤ b + 1 := Nat.mod_le _ _
    omega

set_option maxRecDepth 20000 in
/-- C3 witness: on a fresh instance with timestamp 0 and bound 99 the returned
value 44 is within the bound. -/
theorem generate_bounded_witness : (44 : Nat) ≤ 99 :=
  generate_bounded 0 RandomSample.new 99 44 ⟨1, 0⟩ (by decide)

/-- C4: whenever `get_pseudo_random(bound)` returns a value, that value is the
first byte of the Keccak-256 digest of the 16-byte message formed by the 8
big-endian timestamp bytes followed by the 8 big-endian bytes of the salt as
it was before the call, reduced modulo `bound + 1`. -/
theorem generate_value_keccak (seed : Nat) (s : RandomSample) (b v : Nat) (s' : RandomSample)
    (hb : b < 256) (h : RandomSample.get_pseudo_random seed s b = some (v, s')) :
    v = (keccak256 (u64ToBeBytes seed ++ u64ToBeBytes s.salt)).headD 0 % (b + 1) ∧
      (u64ToBeBytes seed ++ u64ToBeBytes s.salt).length = 16 := by
  have hb2 : b < 255 := by
    rcases Nat.lt_or_ge b 255 with h1 | h1
    · exact h1
    · have hb255 : b = 255 := by omega
      subst hb255
      rw [get_pseudo_random_255] at h
      cases h
  rw [get_pseudo_random_eq_of_lt seed s b hb2] at h
  simp only [Option.some.injEq, Prod.mk.injEq] at h
  exact ⟨h.1.symm, rfl⟩

set_option maxRecDepth 20000 in
/-- C4 witness: on a fresh instance with timestamp 0 and bound 99 the returned
value 44 is the first digest byte (244) of the all-zero 16-byte message,
reduced mod 100. -/
theorem generate_value_keccak_witness :
    (44 : Nat) =
      (keccak256 (u64ToBeBytes 0 ++ u64ToBeBytes RandomSample.new.salt)).headD 0 % (99 + 1) ∧
      (u64ToBeBytes 0 ++ u64ToBeBytes RandomSample.new.salt).length = 16 :=
  generate_value_keccak 0 RandomSample.new 99 44 ⟨1, 0⟩ (by decide) (by decide)

/-- C5 counterexample: starting from a state whose salt is 2^64 - 1, one
successful `get_pseudo_random` call leaves the salt at 0 (the `u64` increment
wraps), not at initial + 1 = 2^64; the counter also decreases here. -/
theorem counter_monotonic_cex :
    runGen ⟨U64_SIZE - 1, 0⟩ [(0, 0)] = some ⟨0, 0⟩ ∧ (0 : Nat) ≠ (U64_SIZE - 1) + 1 := by
  constructor
  · decide
  · decide

/-- C5 amended: after `n` calls with bounds in [0,254] from a valid `u64` salt,
the salt equals (initial + n) mod 2^64, regardless of the bounds, timestamps,
or outputs; it equals initial + n exactly whenever initial + n < 2^64. -/
theorem counter_after_runGen (calls : List (Nat × Nat)) (s : RandomSample)
    (hs : s.salt < U64_SIZE) (hb : ∀ p ∈ calls, p.2 < 255) :
    runGen s calls = some ⟨(s.salt + calls.length) % U64_SIZE, s.random⟩ ∧
      (s.salt + calls.length < U64_SIZE →
        runGen s calls = some ⟨s.salt + calls.length, s.random⟩) := by
  have main : ∀ (l : List (Nat × Nat)) (t : RandomSample), t.salt < U64_SIZE →
      (∀ p ∈ l, p.2 < 255) →
      runGen t l = some ⟨(t.salt + l.length) % U64_SIZE, t.random⟩ := by
    intro l
    induction l with
    | nil =>
      intro t ht _
      simp [runGen, Nat.mod_eq_of_lt ht]
    | cons p rest ih =>
      intro t ht hball
      obtain ⟨seed, b⟩ := p
      have hb1 : b < 255 := hball (seed, b) (List.mem_cons_self _ _)
      have hrest : ∀ q ∈ rest, q.2 < 255 := fun q hq => hball q (List.mem_cons_of_mem _ hq)
      have hstep := get_pseudo_random_eq_of_lt seed t b hb1
      have ih2 := ih ⟨(t.salt + 1) % U64_SIZE, t.random⟩ (Nat.mod_lt _ (by decide)) hrest
      simp only [runGen]
      rw [hstep]
      show runGen ⟨(t.salt + 1) % U64_SIZE, t.random⟩ rest =
        some ⟨(t.salt + (rest.length + 1)) % U64_SIZE, t.random⟩
      rw [ih2]
      have hsalt : ((t.salt + 1) % U64_SIZE + rest.length) % U64_SIZE
          = (t.salt + (rest.length + 1)) % U64_SIZE := by
        rw [Nat.mod_add_mod]
        congr 1
        omega
      simp only [hsalt]
  refine ⟨main calls s hs hb, fun hlt => ?_⟩
  rw [main calls s hs hb, Nat.mod_eq_of_lt hlt]

/-- C5 witness: one call with bound 99 from a fresh instance advances the salt
from 0 to 1. -/
theorem counter_after_runGen_witness :
    runGen RandomSample.new [(0, 99)] = some ⟨1 % U64_SIZE, 0⟩ ∧
      runGen RandomSample.new [(0, 99)] = some ⟨1, 0⟩ :=
  ⟨(counter_after_runGen [(0, 99)] RandomSample.new (by decide) (by decide)).1,
   (counter_after_runGen [(0, 99)] RandomSample.new (by decide) (by decide)).2 (by decide)⟩

set_option maxRecDepth 20000 in
/-- C6 counterexample: from the state (salt 0, random 100) with timestamp 0,
`get_pseudo_random(99)` leaves the state at (salt 1, random 100), while `flip`
leaves it at (salt 1, random 44): the final states differ, because `flip`
additionally stores the generated value. -/
theorem flip_refines_generate_cex :
    RandomSample.get_pseudo_random 0 ⟨0, 100⟩ 99 = some (44, ⟨1, 100⟩) ∧
      RandomSample.flip 0 ⟨0, 100⟩ = ⟨1, 44⟩ ∧ (⟨1, 44⟩ : RandomSample) ≠ ⟨1, 100⟩ := by
  refine ⟨by decide, by decide, by decide⟩

/-- C6 amended: `flip` is equivalent to calling `get_pseudo_random(99)`,
storing the returned value in the `random` field, and discarding it: for every
state and timestamp the call succeeds with some value `v` and new state `s'`,
and `flip` produces exactly `s'` with `random` overwritten by `v`. -/
theorem flip_generate_store (seed : Nat) (s : RandomSample) :
    ∃ v s', RandomSample.get_pseudo_random seed s 99 = some (v, s') ∧
      RandomSample.flip seed s = { s' with random := v } := by
  refine ⟨_, _, get_pseudo_random_eq_of_lt seed s 99 (by decide), ?_⟩
  unfold RandomSample.flip
  rw [get_pseudo_random_eq_of_lt seed s 99 (by decide)]

set_option maxRecDepth 20000 in
/-- C7 counterexample: at salt 2^64 - 1 (timestamp 7), `get_pseudo_random(0)`
does return 0, but the salt wraps to 0 instead of advancing to initial + 1. -/
theorem generate_zero_cex :
    RandomSample.get_pseudo_random 7 ⟨U64_SIZE - 1, 0⟩ 0 = some (0, ⟨0, 0⟩) ∧
      (0 : Nat) ≠ (U64_SIZE - 1) + 1 := by
  constructor
  · decide
  · decide

/-- C7 amended: for every state and timestamp, `get_pseudo_random(0)` returns
0 deterministically (0 mod 1, regardless of the hash output), and the salt
becomes (salt + 1) mod 2^64 — exactly salt + 1 whenever that does not exceed
the u64 range. -/
theorem generate_zero (seed : Nat) (s : RandomSample) :
    RandomSample.get_pseudo_random seed s 0 =
        some (0, { s with salt := (s.salt + 1) % U64_SIZE }) ∧
      (s.salt + 1 < U64_SIZE →
        RandomSample.get_pseudo_random seed s 0 =
          some (0, { s with salt := s.salt + 1 })) := by
  have h := get_pseudo_random_eq_of_lt seed s 0 (by decide)
  simp only [Nat.zero_add, Nat.mod_one] at h
  refine ⟨h, fun hlt => ?_⟩
  rw [h, Nat.mod_eq_of_lt hlt]

/-- C7 witness: on a fresh instance with timestamp 0, `get_pseudo_random(0)`
returns 0 and advances the salt to 1. -/
theorem generate_zero_witness :
    RandomSample.get_pseudo_random 0 RandomSample.new 0 = some (0, ⟨1 % U64_SIZE, 0⟩) ∧
      RandomSample.get_pseudo_random 0 RandomSample.new 0 = some (0, ⟨1, 0⟩) :=
  ⟨(generate_zero 0 RandomSample.new).1, (generate_zero 0 RandomSample.new).2 (by decide)⟩

/-- C8: `get_pseudo_random` is deterministic — the returned value is a pure
function of the 16-byte hashed message and the bound (two runs over equal
messages with the same bound return the same value), and identical
timestamp/state/bound inputs yield identical results wholesale. -/
theorem generate_deterministic (b seed₁ seed₂ : Nat) (s₁ s₂ : RandomSample)
    (hmsg : u64ToBeBytes seed₁ ++ u64ToBeBytes s₁.salt =
      u64ToBeBytes seed₂ ++ u64ToBeBytes s₂.salt) :
    (RandomSample.get_pseudo_random seed₁ s₁ b).map Prod.fst =
        (RandomSample.get_pseudo_random seed₂ s₂ b).map Prod.fst ∧
      (s₁ = s₂ → seed₁ = seed₂ →
        RandomSample.get_pseudo_random seed₁ s₁ b =
          RandomSample.get_pseudo_random seed₂ s₂ b) := by
  constructor
  · by_cases hd : (b + 1) % 256 = 0
    · simp [RandomSample.get_pseudo_random, hd]
    · simp [RandomSample.get_pseudo_random, hd, hmsg]
  · intro hs hseed
    subst hs
    subst hseed
    rfl

/-- C8 witness: the determinism theorem applied to two identical runs on a
fresh instance with timestamp 0 and bound 5. -/
theorem generate_deterministic_witness :
    (RandomSample.get_pseudo_random 0 RandomSample.new 5).map Prod.fst =
        (RandomSample.get_pseudo_random 0 RandomSample.new 5).map Prod.fst ∧
      RandomSample.get_pseudo_random 0 RandomSample.new 5 =
        RandomSample.get_pseudo_random 0 RandomSample.new 5 :=
  ⟨(generate_deterministic 5 0 0 RandomSample.new RandomSample.new rfl).1,
   (generate_deterministic 5 0 0 RandomSample.new RandomSample.new rfl).2 rfl rfl⟩

/-- C9: both constructors produce the state (salt 0, random 0), `default`
delegates to `new`, and `lastValue` (the code's `get`) reads 0 there; the
constructors are plain state literals, never invoking the generator. -/
theorem construction_invariant :
    RandomSample.new = ⟨0, 0⟩ ∧ RandomSample.default = RandomSample.new ∧
      RandomSample.new.salt = 0 ∧ RandomSample.get RandomSample.new = 0 ∧
      RandomSample.default.salt = 0 ∧ RandomSample.get RandomSample.default = 0 := by
  refine ⟨rfl, rfl, rfl, rfl, rfl, rfl⟩

/-- C10: the stored `random` field never influences generation — two states
that differ only in `random` give the same returned value and the same new
salt for every timestamp and bound. -/
theorem random_field_no_influence (seed salt r₁ r₂ b : Nat) :
    (RandomSample.get_pseudo_random seed ⟨salt, r₁⟩ b).map Prod.fst =
        (RandomSample.get_pseudo_random seed ⟨salt, r₂⟩ b).map Prod.fst ∧
      (RandomSample.get_pseudo_random seed ⟨salt, r₁⟩ b).map (fun p => p.2.salt) =
        (RandomSample.get_pseudo_random seed ⟨salt, r₂⟩ b).map (fun p => p.2.salt) := by
  by_cases hd : (b + 1) % 256 = 0
  · simp [RandomSample.get_pseudo_random, hd]
  · simp [RandomSample.get_pseudo_random, hd]
